import Mathlib

/-!
Verification of the data-normalization pipeline of the `data-visualisation`
repository.

The pipeline lives in `data-config.js` (class `DataConfig` with the public
method `parseData` composing three private passes) and is configured by the
constants `countryConfig`, `incomeConfig` and `labourConfig` of `main.js`.
The embedding below translates those definitions directly; JavaScript's
dynamically typed values are modelled by `JSVal`, and its numbers by `JSNum`
(a finite decimal or NaN — every number reaching the pipeline is produced by
`parseFloat`/`ToNumber` on decimal text or is a decimal literal of the
source, so the decimal fragment is exact here).
-/

/-- A finite decimal number `man / 10 ^ exp`. -/
structure JSDec where
  man : Int
  exp : Nat
deriving DecidableEq

/-- The rational value denoted by a decimal. -/
def JSDec.val (d : JSDec) : ℚ := (d.man : ℚ) / 10 ^ d.exp

/-- A JavaScript number as it occurs in the pipeline: a finite decimal, or
NaN (`none`). -/
abbrev JSNum := Option JSDec

/-- JavaScript `<=` on numbers: false whenever either side is NaN. -/
def jsLe : JSNum → JSNum → Bool
  | some a, some b => a.man * (10 : Int) ^ b.exp ≤ b.man * (10 : Int) ^ a.exp
  | _, _ => false

/-- JavaScript `<` on numbers: false whenever either side is NaN. -/
def jsLt : JSNum → JSNum → Bool
  | some a, some b => a.man * (10 : Int) ^ b.exp < b.man * (10 : Int) ^ a.exp
  | _, _ => false

/-- A dynamically typed JavaScript value of the kinds the pipeline stores in
its records: a string or a number. -/
inductive JSVal where
  | str (s : String)
  | num (n : JSNum)
deriving DecidableEq

/-- Whether a value is a number (and not a string). -/
def JSVal.isNum : JSVal → Bool
  | .num _ => true
  | .str _ => false

/-- ASCII decimal digit test. -/
def isDigitChar (c : Char) : Bool := '0' ≤ c && c ≤ '9'

/-- Whitespace test for numeric parsing. -/
def isSpaceChar (c : Char) : Bool := c = ' ' || c = '\t' || c = '\n' || c = '\r'

/-- Value of a digit string, most significant digit first. -/
def digitsToNat (ds : List Char) : Nat := ds.foldl (fun a c => 10 * a + (c.toNat - 48)) 0

/-- Models the JavaScript built-in `parseFloat` on decimal text: skip leading
whitespace, read an optional sign and the longest prefix of the form
`digits[.digits]` or `.digits`, and return NaN (`none`) when no digit is
found.  (Exponent notation and `Infinity`, which never occur in this
dataset's estimates, are outside the model.) -/
def parseFloat (s : String) : JSNum :=
  let cs := s.data.dropWhile isSpaceChar
  let sgn : Int := match cs with | '-' :: _ => -1 | _ => 1
  let cs1 := match cs with | '-' :: r => r | '+' :: r => r | _ => cs
  let ip := cs1.takeWhile isDigitChar
  let r1 := cs1.dropWhile isDigitChar
  let fp := match r1 with
            | '.' :: rest => rest.takeWhile isDigitChar
            | _ => []
  if ip = [] && fp = [] then none
  else some ⟨sgn * (digitsToNat (ip ++ fp) : Int), fp.length⟩

/-- Models the JavaScript `ToNumber` coercion on strings (applied when a
string meets a relational operator): trim whitespace, map the empty string
to `0`, accept a complete signed decimal literal, and return NaN (`none`)
for anything else — in particular for the string `"NaN"`. -/
def toNumber (s : String) : JSNum :=
  let cs := ((s.data.dropWhile isSpaceChar).reverse.dropWhile isSpaceChar).reverse
  if cs = [] then some ⟨0, 0⟩
  else
    let sgn : Int := match cs with | '-' :: _ => -1 | _ => 1
    let cs1 := match cs with | '-' :: r => r | '+' :: r => r | _ => cs
    let ip := cs1.takeWhile isDigitChar
    let r1 := cs1.dropWhile isDigitChar
    match r1 with
    | [] => if ip = [] then none else some ⟨sgn * (digitsToNat ip : Int), 0⟩
    | '.' :: rest =>
        let fp := rest.takeWhile isDigitChar
        if rest.dropWhile isDigitChar = [] && !(ip = [] && fp = []) then
          some ⟨sgn * (digitsToNat (ip ++ fp) : Int), fp.length⟩
        else none
    | _ => none

/-- The numeric reading of a value, as JavaScript's comparison operators
coerce it: numbers are themselves, strings go through `ToNumber`. -/
def JSVal.toNum : JSVal → JSNum
  | .num n => n
  | .str s => toNumber s

/-- Models `Number.prototype.toFixed(1)` — note that it returns a STRING:
NaN prints as `"NaN"`; otherwise the absolute value is rounded to one
decimal digit (ties rounding up) and printed with exactly one digit after
the point, after an optional minus sign. -/
def toFixed1 : JSNum → String
  | none => "NaN"
  | some d =>
      let sgn := if d.man < 0 then "-" else ""
      let n : Nat := (d.man.natAbs * 20 + 10 ^ d.exp) / (2 * 10 ^ d.exp)
      sgn ++ toString (n / 10) ++ "." ++ toString (n % 10)

/-- One raw CSV row, restricted to the six fields the pipeline reads.  The
income column may be absent from a row, in which case indexing yields
JavaScript `undefined` (`none`); `data-config.js` tests exactly for that. -/
structure Row where
  setting : String
  indicator_name : String
  dimension : String
  subgroup : String
  wbincome2024 : Option String
  estimate : String
deriving DecidableEq

/-- The object `firstCountryData` that `#firstParseData` pushes. -/
structure FirstRec where
  country : String
  residence : String
  income : Option String
  labour : JSVal
deriving DecidableEq

/-- The key/value pairs of the object literal `countryConfig` in `main.js`:
database country names to map-data country names, in source order. -/
def countryPairs : List (String × String) :=
  [("Bolivia (Plurinational State of)", "Bolivia"),
   ("Bosnia and Herzegovina", "Bosnia and Herz."),
   ("Brunei Darussalam", "Brunei"),
   ("Central African Republic", "Central African Rep."),
   ("Democratic People's Republic of Korea", "North Korea"),
   ("Democratic Republic of the Congo", "Dem. Rep. Congo"),
   ("Dominican Republic", "Dominican Rep."),
   ("Equatorial Guinea", "Eq. Guinea"),
   ("Iran (Islamic Republic of)", "Iran"),
   ("Lao People's Democratic Republic", "Laos"),
   ("Netherlands (Kingdom of the)", "Netherlands"),
   ("North Macedonia", "Macedonia"),
   ("occupied Palestinian territory", "Palestine"),
   ("Republic of Korea", "South Korea"),
   ("Republic of Moldova", "Moldova"),
   ("Russian Federation", "Russia"),
   ("Saint Vincent and the Grenadines", "St. Vin. and Gren."),
   ("Sao Tome and Principe", "São Tomé and Principe"),
   ("Solomon Islands", "Solomon Is."),
   ("South Sudan", "S. Sudan"),
   ("Syrian Arab Republic", "Syria"),
   ("The United Kingdom", "United Kingdom"),
   ("Türkiye", "Turkey"),
   ("United Republic of Tanzania", "Tanzania"),
   ("Viet Nam", "Vietnam")]

/-- `countryConfig` of `main.js`, modelled as JavaScript property lookup on
the object literal (absent key ↦ `undefined`). -/
def countryConfig (s : String) : Option String :=
  (countryPairs.find? (fun p => p.1 == s)).map (fun p => p.2)

/-- `incomeConfig` of `main.js`: income labels to tertile numbers, modelled
as JavaScript property lookup (absent key ↦ `undefined`). -/
def incomeConfig (s : String) : Option Nat :=
  if s = "Low income" then some 0
  else if s = "Lower middle income" then some 0
  else if s = "Upper middle income" then some 1
  else if s = "High income" then some 2
  else none

/-- `labourConfig` of `main.js`: buckets a labour rate into tertile 0, 1
or 2.  The argument is the value after JavaScript number coercion at the
comparison operators (`45.0` and `58.0` are the source's literals). -/
def labourConfig (value : JSNum) : Nat :=
  if jsLe value (some ⟨450, 1⟩) then 0
  else if jsLt (some ⟨450, 1⟩) value && jsLe value (some ⟨580, 1⟩) then 1
  else 2

/-- The filter of `#firstParseData`. -/
def firstKeep (r : Row) : Bool :=
  r.indicator_name = "Labour force participation rate (%) - Female" &&
    r.dimension = "Place of residence"

/-- The record `#firstParseData` builds from a kept row; the labour field is
`parseFloat(estimate).toFixed(1)`, a string. -/
def firstRecOf (r : Row) : FirstRec :=
  { country := r.setting
    residence := r.subgroup
    income := r.wbincome2024
    labour := .str (toFixed1 (parseFloat r.estimate)) }

/-- The country rewrite `this.countryConfig[country] || country` of
`#secondParseData`: an absent key yields `undefined`, and `||` also falls
back to the left operand's replacement on any falsy value, in particular on
an empty string. -/
def remap (cfg : String → Option String) (c : String) : String :=
  match cfg c with
  | some v => if v = "" then c else v
  | none => c

/-- The loop of `#secondParseData`, with the running index `i` explicit:
keep index `i` iff the income field is defined, non-empty, and `i` is even;
rewrite the country name and push the triple `[country, income, labour]`. -/
def secondAux (cfg : String → Option String) : Nat → List FirstRec → List (String × String × JSVal)
  | _, [] => []
  | i, r :: rs =>
    match r.income with
    | none => secondAux cfg (i + 1) rs
    | some inc =>
        if inc ≠ "" ∧ i % 2 = 0 then
          (remap cfg r.country, inc, r.labour) :: secondAux cfg (i + 1) rs
        else secondAux cfg (i + 1) rs

/-- The record `#finalParseData` builds from one `secondSort` entry:
`[country, incomeConfig[income], labourConfig(labour)]`.  The labour value
stored in `secondSort` is a string, so `labourConfig`'s comparisons coerce
it through `ToNumber`. -/
def finalRecOf (incomeCfg : String → Option Nat) (labourCfg : JSNum → Nat)
    (t : String × String × JSVal) : String × Option Nat × Nat :=
  (t.1, incomeCfg t.2.1, labourCfg t.2.2.toNum)

/-- The state of a `DataConfig` instance: the three configuration values
passed to the constructor and the three accumulator arrays, which start
empty and are only ever pushed to. -/
structure DataConfig where
  countryConfig : String → Option String
  incomeConfig : String → Option Nat
  labourConfig : JSNum → Nat
  firstSort : List FirstRec
  secondSort : List (String × String × JSVal)
  finalSort : List (String × Option Nat × Nat)

/-- `#firstParseData(csvData)`: append to `firstSort` one record per row
passing both filter predicates, in input order. -/
def DataConfig.firstParseData (dc : DataConfig) (csvData : List Row) : DataConfig :=
  { dc with firstSort := dc.firstSort ++ (csvData.filter firstKeep).map firstRecOf }

/-- `#secondParseData()`: iterate the whole current `firstSort` with index
`i` from 0 and append the kept triples to `secondSort`. -/
def DataConfig.secondParseData (dc : DataConfig) : DataConfig :=
  { dc with secondSort := dc.secondSort ++ secondAux dc.countryConfig 0 dc.firstSort }

/-- `#finalParseData()`: iterate the whole current `secondSort` and append
one bucketed record per entry to `finalSort`. -/
def DataConfig.finalParseData (dc : DataConfig) : DataConfig :=
  { dc with finalSort := dc.finalSort ++ dc.secondSort.map (finalRecOf dc.incomeConfig dc.labourConfig) }

/-- `parseData(csvData)`: the three passes in order, on the instance's
state. -/
def DataConfig.parseData (dc : DataConfig) (csvData : List Row) : DataConfig :=
  ((dc.firstParseData csvData).secondParseData).finalParseData

/-- The instance `new DataConfig(countryConfig, incomeConfig, labourConfig)`
created in `main.js`, with its three empty accumulator arrays. -/
def dataConfig : DataConfig :=
  ⟨countryConfig, incomeConfig, labourConfig, [], [], []⟩

/-- The urban row of the spec's end-to-end scenario. -/
def rowUrban : Row :=
  ⟨"Russian Federation", "Labour force participation rate (%) - Female",
   "Place of residence", "Urban", some "Upper middle income", "50.4"⟩

/-- The rural row of the spec's end-to-end scenario. -/
def rowRural : Row := { rowUrban with subgroup := "Rural" }

/-- A row passing both Stage-1 filters whose estimate does not parse as a
number. -/
def rowBadEstimate : Row :=
  ⟨"Albania", "Labour force participation rate (%) - Female",
   "Place of residence", "Urban", some "High income", "not available"⟩

/-- A well-formed row used to exercise repeated invocations. -/
def rowA : Row :=
  ⟨"Albania", "Labour force participation rate (%) - Female",
   "Place of residence", "Urban", some "Upper middle income", "46.9"⟩

/-- A second well-formed row, for a different country. -/
def rowB : Row :=
  ⟨"Belgium", "Labour force participation rate (%) - Female",
   "Place of residence", "Urban", some "High income", "60.0"⟩

/-- The keep-condition of `#secondParseData` on an (index, record) pair:
income defined, income non-empty, index even. -/
def secondKeep (p : Nat × FirstRec) : Bool :=
  p.2.income.isSome && !(p.2.income == some "") && p.1 % 2 == 0

/-- `jsLe` agrees with the rational order on finite decimals. -/
theorem jsLe_val (a b : JSDec) : jsLe (some a) (some b) = true ↔ a.val ≤ b.val := by
  simp only [jsLe, decide_eq_true_eq, JSDec.val]
  rw [div_le_div_iff₀ (by positivity) (by positivity)]
  constructor
  · intro h; exact_mod_cast h
  · intro h; exact_mod_cast h

/-- `jsLt` agrees with the strict rational order on finite decimals. -/
theorem jsLt_val (a b : JSDec) : jsLt (some a) (some b) = true ↔ a.val < b.val := by
  simp only [jsLt, decide_eq_true_eq, JSDec.val]
  rw [div_lt_div_iff₀ (by positivity) (by positivity)]
  constructor
  · intro h; exact_mod_cast h
  · intro h; exact_mod_cast h

/-- Every value of the country table is a non-empty string. -/
theorem countryConfig_some_ne_empty (s v : String) (h : countryConfig s = some v) : v ≠ "" := by
  unfold countryConfig at h
  cases hf : countryPairs.find? (fun p => p.1 == s) with
  | none => rw [hf] at h; cases h
  | some p =>
      rw [hf] at h
      injection h with h2
      subst h2
      have hmem := List.mem_of_find?_eq_some hf
      have hall : ∀ q ∈ countryPairs, q.2 ≠ "" := by decide
      exact hall p hmem

/-- `secondAux` starting at index `i` filters the enumeration-from-`i` by the
keep-condition and rewrites each kept record. -/
theorem secondAux_eq_enumFrom (cfg : String → Option String) (first : List FirstRec) :
    ∀ i, secondAux cfg i first =
      ((List.enumFrom i first).filter secondKeep).map
        (fun p => (remap cfg p.2.country, p.2.income.getD "", p.2.labour)) := by
  induction first with
  | nil => intro i; rfl
  | cons r rs ih =>
      intro i
      cases h : r.income with
      | none =>
          simp [secondAux, h, List.enumFrom, List.filter_cons, secondKeep, ih (i + 1)]
      | some inc =>
          by_cases he : inc = ""
          · subst he
            simp [secondAux, h, List.enumFrom, List.filter_cons, secondKeep, ih (i + 1)]
          · by_cases hp : i % 2 = 0
            · simp [secondAux, h, he, hp, List.enumFrom, List.filter_cons, secondKeep, ih (i + 1)]
            · simp [secondAux, h, he, hp, List.enumFrom, List.filter_cons, secondKeep, ih (i + 1)]

/-- When every income label is defined and non-empty, `secondAux` keeps
exactly the records at even running index. -/
theorem secondAux_length_all_valid (cfg : String → Option String) (first : List FirstRec)
    (hall : ∀ r ∈ first, r.income ≠ none ∧ r.income ≠ some "") :
    ∀ i, (secondAux cfg i first).length =
      if i % 2 = 0 then (first.length + 1) / 2 else first.length / 2 := by
  induction first with
  | nil => intro i; simp [secondAux]
  | cons r rs ih =>
      intro i
      obtain ⟨hne, hne'⟩ := hall r (List.mem_cons_self r rs)
      obtain ⟨inc, hinc⟩ := Option.ne_none_iff_exists'.mp hne
      have hinc' : inc ≠ "" := by
        intro he; apply hne'; rw [hinc, he]
      have hrs := ih (fun x hx => hall x (List.mem_cons_of_mem r hx))
      by_cases hp : i % 2 = 0
      · have hp1 : ¬(i + 1) % 2 = 0 := by omega
        rw [if_pos hp]
        simp only [secondAux, hinc, hinc', hp, and_true, ne_eq, not_false_iff, if_true,
          List.length_cons, hrs (i + 1), if_neg hp1]
        omega
      · have hp1 : (i + 1) % 2 = 0 := by omega
        rw [if_neg hp]
        simp only [secondAux, hinc, hinc', hp, and_false, if_false, List.length_cons,
          hrs (i + 1), if_pos hp1]

/-- Claim C1: on a fresh instance, the spec's two-row Russian-Federation
scenario yields 2 Stage-1 records, exactly 1 Stage-2 record (the filtered
index 0) with display country "Russia", and the single final record
("Russia", income tertile 1, labour tertile 1). -/
theorem c1_end_to_end :
    (dataConfig.parseData [rowUrban, rowRural]).firstSort.length = 2 ∧
    (dataConfig.parseData [rowUrban, rowRural]).secondSort =
      [("Russia", "Upper middle income", JSVal.str "50.4")] ∧
    (dataConfig.parseData [rowUrban, rowRural]).finalSort = [("Russia", some 1, 1)] := by
  decide

/-- Claim C2 (code behaviour at the failing input): a row that passes the
Stage-1 filters but whose estimate fails to parse is NOT excluded — its
labour field becomes the string "NaN", and the pipeline emits a final record
for it with labour tertile 2, contradicting the exclusion policy. -/
theorem c2_nan_row_reaches_output :
    parseFloat rowBadEstimate.estimate = none ∧
    firstKeep rowBadEstimate = true ∧
    (dataConfig.parseData [rowBadEstimate]).firstSort =
      [⟨"Albania", "Urban", some "High income", JSVal.str "NaN"⟩] ∧
    (dataConfig.parseData [rowBadEstimate]).finalSort = [("Albania", some 2, 2)] := by
  decide

/-- Claim C7 (code behaviour): running `parseData` a second time on the same
instance is not independent of the first run — on input `[rowB]` alone a
fresh instance produces the single Belgium record, but after a first run on
`[rowA]` the second run's `finalSort` holds three copies of the Albania
record and no Belgium record at all (the leftover `firstSort` entry is
re-processed at even index 0 while the new row lands at odd index 1, and the
accumulated `secondSort` is re-bucketed wholesale). -/
theorem c7_second_run_leaks_state :
    (dataConfig.parseData [rowB]).finalSort = [("Belgium", some 2, 2)] ∧
    ((dataConfig.parseData [rowA]).parseData [rowB]).finalSort =
      [("Albania", some 1, 1), ("Albania", some 1, 1), ("Albania", some 1, 1)] := by
  decide

/-- Claim C8, counterexample: the labour field of the Stage-1 record built
from the scenario's urban row is the STRING "50.4" (JavaScript `toFixed`
returns a string), not a number. -/
theorem c8_labour_is_string :
    ((dataConfig.firstParseData [rowUrban]).firstSort.map fun r => r.labour.isNum) = [false] ∧
    ((dataConfig.firstParseData [rowUrban]).firstSort.map fun r => r.labour) =
      [JSVal.str "50.4"] := by
  decide

/-- Claim C8 as amended: every Stage-1 record's labour field is a string —
the one-decimal fixed-point formatting of the row's estimate parsed as a
float — coming from a row that passed both filters. -/
theorem c8_labour_from_tofixed (csvData : List Row) :
    ∀ rec ∈ (dataConfig.firstParseData csvData).firstSort, ∃ r ∈ csvData,
      firstKeep r = true ∧
      rec.labour = JSVal.str (toFixed1 (parseFloat r.estimate)) ∧
      rec.labour.isNum = false := by
  intro rec hrec
  simp only [DataConfig.firstParseData, dataConfig, List.nil_append, List.mem_map,
    List.mem_filter] at hrec
  obtain ⟨r, ⟨hr, hkeep⟩, rfl⟩ := hrec
  exact ⟨r, hr, hkeep, rfl, rfl⟩

/-- Witness for `c8_labour_from_tofixed` at the scenario's urban row. -/
theorem c8_labour_from_tofixed_witness :
    ∃ r ∈ [rowUrban], firstKeep r = true ∧
      (firstRecOf rowUrban).labour = JSVal.str (toFixed1 (parseFloat r.estimate)) ∧
      (firstRecOf rowUrban).labour.isNum = false :=
  c8_labour_from_tofixed [rowUrban] (firstRecOf rowUrban) (by decide)

/-- Claim C3: on a fresh instance, the Stage-2 output is exactly the
Stage-1 records at even 0-based index whose income label is defined and
non-empty, in the same relative order (filter of the enumeration), and when
every income label is valid its length is `⌈n/2⌉ = (n+1)/2`. -/
theorem c3_second_stage (cfg : String → Option String) (first : List FirstRec) :
    (DataConfig.secondParseData ⟨cfg, incomeConfig, labourConfig, first, [], []⟩).secondSort =
      ((List.enum first).filter secondKeep).map
        (fun p => (remap cfg p.2.country, p.2.income.getD "", p.2.labour)) ∧
    ((∀ r ∈ first, r.income ≠ none ∧ r.income ≠ some "") →
      (DataConfig.secondParseData ⟨cfg, incomeConfig, labourConfig, first, [], []⟩).secondSort.length =
        (first.length + 1) / 2) := by
  constructor
  · simp only [DataConfig.secondParseData, List.nil_append]
    exact secondAux_eq_enumFrom cfg first 0
  · intro hall
    simp only [DataConfig.secondParseData, List.nil_append]
    rw [secondAux_length_all_valid cfg first hall 0]
    simp

/-- Witness for `c3_second_stage` on a three-record Stage-1 sequence with
all income labels valid: indices 0 and 2 survive, length `⌈3/2⌉ = 2`. -/
theorem c3_second_stage_witness :
    (DataConfig.secondParseData
        ⟨countryConfig, incomeConfig, labourConfig,
         [⟨"Russian Federation", "Urban", some "Upper middle income", JSVal.str "50.4"⟩,
          ⟨"Russian Federation", "Rural", some "Upper middle income", JSVal.str "50.4"⟩,
          ⟨"Belgium", "Urban", some "High income", JSVal.str "60.0"⟩], [], []⟩).secondSort.length =
      (3 + 1) / 2 :=
  (c3_second_stage countryConfig
    [⟨"Russian Federation", "Urban", some "Upper middle income", JSVal.str "50.4"⟩,
     ⟨"Russian Federation", "Rural", some "Upper middle income", JSVal.str "50.4"⟩,
     ⟨"Belgium", "Urban", some "High income", JSVal.str "60.0"⟩]).2 (by decide)

/-- Claim C4: the labour-tertile function buckets by value — 0 up to 45.0,
1 above 45.0 up to 58.0, 2 above 58.0 — with boundaries in the lower
bucket: 45.0 ↦ 0, 45.1 ↦ 1, 58.0 ↦ 1, 58.1 ↦ 2. -/
theorem c4_labour_tertile_thresholds :
    (∀ v : JSDec, labourConfig (some v) =
        if v.val ≤ 45 then 0 else if v.val ≤ 58 then 1 else 2) ∧
    labourConfig (some ⟨450, 1⟩) = 0 ∧ labourConfig (some ⟨451, 1⟩) = 1 ∧
    labourConfig (some ⟨580, 1⟩) = 1 ∧ labourConfig (some ⟨581, 1⟩) = 2 := by
  refine ⟨?_, by decide, by decide, by decide, by decide⟩
  intro v
  have e1 : jsLe (some v) (some ⟨450, 1⟩) = true ↔ v.val ≤ 45 := by
    rw [jsLe_val]; norm_num [JSDec.val]
  have e2 : jsLt (some ⟨450, 1⟩) (some v) = true ↔ 45 < v.val := by
    rw [jsLt_val]; norm_num [JSDec.val]
  have e3 : jsLe (some v) (some ⟨580, 1⟩) = true ↔ v.val ≤ 58 := by
    rw [jsLe_val]; norm_num [JSDec.val]
  unfold labourConfig
  rcases le_or_lt v.val 45 with h1 | h1
  · rw [if_pos (e1.mpr h1), if_pos h1]
  · rw [if_neg (fun hc => absurd (e1.mp hc) (not_le.mpr h1)), if_neg (not_le.mpr h1)]
    rcases le_or_lt v.val 58 with h2 | h2
    · rw [if_pos (by rw [Bool.and_eq_true]; exact ⟨e2.mpr h1, e3.mpr h2⟩), if_pos h2]
    · rw [if_neg (fun hc => absurd (e3.mp (Bool.and_eq_true .. ▸ hc).2) (not_le.mpr h2)),
        if_neg (not_le.mpr h2)]

/-- Claim C5: Stage 1 on a fresh instance emits at most one record per input
row, keeps exactly the rows passing both filter predicates in input order,
and every emitted record is derived from such a row. -/
theorem c5_first_stage (csvData : List Row) :
    (dataConfig.firstParseData csvData).firstSort =
      (csvData.filter firstKeep).map firstRecOf ∧
    (dataConfig.firstParseData csvData).firstSort.length ≤ csvData.length ∧
    ∀ rec ∈ (dataConfig.firstParseData csvData).firstSort, ∃ r ∈ csvData,
      r.indicator_name = "Labour force participation rate (%) - Female" ∧
      r.dimension = "Place of residence" ∧ rec = firstRecOf r := by
  refine ⟨rfl, ?_, ?_⟩
  · simp only [DataConfig.firstParseData, dataConfig, List.nil_append, List.length_map]
    exact List.length_filter_le firstKeep csvData
  · intro rec hrec
    simp only [DataConfig.firstParseData, dataConfig, List.nil_append, List.mem_map,
      List.mem_filter] at hrec
    obtain ⟨r, ⟨hr, hkeep⟩, rfl⟩ := hrec
    simp only [firstKeep, Bool.and_eq_true, decide_eq_true_eq] at hkeep
    exact ⟨r, hr, hkeep.1, hkeep.2, rfl⟩

/-- Witness for `c5_first_stage`: the record emitted for the rural row of
the scenario comes from an input row satisfying both predicates. -/
theorem c5_first_stage_witness :
    ∃ r ∈ [rowUrban, rowRural],
      r.indicator_name = "Labour force participation rate (%) - Female" ∧
      r.dimension = "Place of residence" ∧ firstRecOf rowRural = firstRecOf r :=
  (c5_first_stage [rowUrban, rowRural]).2.2 (firstRecOf rowRural) (by decide)

/-- Claim C6: an income label other than the four table keys yields an
undefined income tertile in the bucketed record — it is never defaulted to
tertile 0 (the "Low income" bucket). -/
theorem c6_unknown_income_missing (inc : String)
    (h1 : inc ≠ "Low income") (h2 : inc ≠ "Lower middle income")
    (h3 : inc ≠ "Upper middle income") (h4 : inc ≠ "High income") :
    incomeConfig inc = none ∧
    ∀ c lab, (finalRecOf incomeConfig labourConfig (c, inc, lab)).2.1 = none ∧
      (finalRecOf incomeConfig labourConfig (c, inc, lab)).2.1 ≠ some 0 := by
  have hc : incomeConfig inc = none := by
    unfold incomeConfig
    rw [if_neg h1, if_neg h2, if_neg h3, if_neg h4]
  exact ⟨hc, fun c lab => ⟨by simp [finalRecOf, hc], by simp [finalRecOf, hc]⟩⟩

/-- Witness for `c6_unknown_income_missing` at the label "Middle income". -/
theorem c6_unknown_income_missing_witness :
    incomeConfig "Middle income" = none ∧
    ∀ c lab, (finalRecOf incomeConfig labourConfig (c, "Middle income", lab)).2.1 = none ∧
      (finalRecOf incomeConfig labourConfig (c, "Middle income", lab)).2.1 ≠ some 0 :=
  c6_unknown_income_missing "Middle income" (by decide) (by decide) (by decide) (by decide)

/-- Claim C9: the country remap substitutes the mapped value exactly when
the input string is a key of the table and otherwise returns the input
unchanged; in particular a mapping target that is not itself a key (and no
target of this table is) is returned unchanged, so the remap is idempotent
on its targets. -/
theorem c9_country_remap :
    (∀ s v, countryConfig s = some v → remap countryConfig s = v) ∧
    (∀ s, countryConfig s = none → remap countryConfig s = s) ∧
    (∀ t, (∃ k, countryConfig k = some t) → countryConfig t = none →
      remap countryConfig t = t) := by
  refine ⟨?_, ?_, ?_⟩
  · intro s v h
    simp [remap, h, countryConfig_some_ne_empty s v h]
  · intro s h
    simp [remap, h]
  · intro t _ h
    simp [remap, h]

/-- Witness for `c9_country_remap`: "Russian Federation" is a key and maps
to "Russia"; "Germany" is not a key and is unchanged; the target "Russia"
is not a key and is unchanged. -/
theorem c9_country_remap_witness :
    remap countryConfig "Russian Federation" = "Russia" ∧
    remap countryConfig "Germany" = "Germany" ∧
    remap countryConfig "Russia" = "Russia" :=
  ⟨c9_country_remap.1 "Russian Federation" "Russia" (by decide),
   c9_country_remap.2.1 "Germany" (by decide),
   c9_country_remap.2.2 "Russia" ⟨"Russian Federation", by decide⟩ (by decide)⟩

/-- Claim C10: the labour-tertile function is total with range exactly
{0, 1, 2}: whenever both guard conditions are false — in particular on NaN,
the coercion of the string "NaN" that a failed parse produces through
`toFixed` — it takes the final else branch and returns 2; it never returns
a missing value. -/
theorem c10_labour_total :
    (∀ v : JSNum, labourConfig v = 0 ∨ labourConfig v = 1 ∨ labourConfig v = 2) ∧
    (∀ v : JSNum, jsLe v (some ⟨450, 1⟩) = false →
      (jsLt (some ⟨450, 1⟩) v && jsLe v (some ⟨580, 1⟩)) = false →
      labourConfig v = 2) ∧
    labourConfig none = 2 ∧
    labourConfig (JSVal.toNum (JSVal.str (toFixed1 none))) = 2 ∧
    labourConfig (some ⟨400, 1⟩) = 0 ∧ labourConfig (some ⟨500, 1⟩) = 1 ∧
    labourConfig (some ⟨600, 1⟩) = 2 := by
  refine ⟨?_, ?_, by decide, by decide, by decide, by decide, by decide⟩
  · intro v
    unfold labourConfig
    split_ifs <;> simp
  · intro v h1 h2
    simp [labourConfig, h1, h2]

/-- Witness for `c10_labour_total` at NaN: both guards are false there and
the result is 2. -/
theorem c10_labour_total_witness : labourConfig none = 2 :=
  c10_labour_total.2.1 none (by decide) (by decide)
